import Mathlib

/-!
Verification of the fin-advisor event-logging pipeline.

Shallow embedding of:
  * `mcp_server/db_operations.py` — `DatabaseManager.connect`, `log_status`,
    `get_recent_logs`;
  * `mcp_server/config.py` — `get_database_url`;
  * `mcp_server/http_server.py` — `health_check`, `query_logs`;
  * `mcp_server/server.py` — `call_tool` (query branch);
  * `financial_advisor/tools/__init__.py` — `StatusLoggerTool.run` and its
    two transport paths.

Machine integers are modelled as `Nat`/`Int`; Python `Optional[...]` as
`Option`; raised exceptions as `Except` errors; Python truthiness of strings
and dicts is modelled explicitly (`""`, `None` and `dict()` are falsy).
-/

namespace FinAdvisor

/-- One row of the `agent_status_logs` table (see `create_tables` in
`db_operations.py`).  `metadata` holds the serialized JSONB blob, `none`
standing for SQL NULL.  `id` is the SERIAL primary key and `timestamp` the
store-assigned creation time (modelled as a `Nat` clock value). -/
structure Row where
  id : Nat
  timestamp : Nat
  session_id : String
  user_id : String
  agent_name : String
  status_type : String
  message : String
  metadata : Option String
deriving DecidableEq, Repr

/-- State of the logical `agent_status_logs` table: rows in storage
(insertion) order, plus the next SERIAL id to assign. -/
structure DBState where
  rows : List Row
  nextId : Nat
deriving DecidableEq, Repr

/-- A metadata dictionary, modelled as an association list of string keys to
string values (the structure of the values is irrelevant to the pipeline:
the store only ever serializes the whole dict to one opaque blob). -/
abbrev Metadata := List (String × String)

/-- `json.dumps` on a metadata dictionary: one canonical opaque rendering.
Only injectivity-irrelevant structure matters to the claims; the store
treats the result as an opaque blob. -/
def dumpsObj (m : Metadata) : String :=
  "\x7b" ++ String.intercalate ", " (m.map fun kv => "\x22" ++ kv.1 ++ "\x22: \x22" ++ kv.2 ++ "\x22") ++ "\x7d"

/-- The expression `json.dumps(metadata) if metadata else None` from
`DatabaseManager.log_status` (db_operations.py line 147).  Python dict
truthiness: `None` and the empty dict are both falsy. -/
def serializeMetadata (metadata : Option Metadata) : Option String :=
  match metadata with
  | none => none
  | some m => if m.isEmpty then none else some (dumpsObj m)

/-- The identical expression `json.dumps(metadata) if metadata else None`
from `StatusLoggerTool._log_via_database` (tools/__init__.py line 162). -/
def clientSerializeMetadata (metadata : Option Metadata) : Option String :=
  match metadata with
  | none => none
  | some m => if m.isEmpty then none else some (dumpsObj m)

/-- `DatabaseManager.log_status`: INSERT one row, letting the store assign
`id` (SERIAL) and `timestamp` (CURRENT_TIMESTAMP, modelled by the clock
argument `now`), RETURNING the assigned id.  Returns the id and the new
table state. -/
def log_status (st : DBState) (now : Nat)
    (session_id user_id agent_name status_type message : String)
    (metadata : Option Metadata := none) : Nat × DBState :=
  let row : Row :=
    { id := st.nextId
      timestamp := now
      session_id := session_id
      user_id := user_id
      agent_name := agent_name
      status_type := status_type
      message := message
      metadata := serializeMetadata metadata }
  (st.nextId, { rows := st.rows ++ [row], nextId := st.nextId + 1 })

/-- One optional filter of `get_recent_logs`: the condition
`field = $n` is added only when the Python value is truthy (`if session_id:`),
so `None` and `""` both mean "no condition". -/
def passesFilter (filt : Option String) (field : String) : Bool :=
  match filt with
  | none => true
  | some s => if s.isEmpty then true else field == s

/-- The conjunction of the two optional filter conditions of
`get_recent_logs` (they are joined with AND when both present). -/
def rowMatches (session_id agent_name : Option String) (r : Row) : Bool :=
  passesFilter session_id r.session_id && passesFilter agent_name r.agent_name

/-- Insert a row into a list already sorted by timestamp descending, going
in front of the first strictly-older row only.  Equal timestamps keep the
existing element first, which makes `sortTsDesc` a stable model of the
query's `ORDER BY timestamp DESC` (which names no tiebreak column). -/
def insertTs (r : Row) : List Row → List Row
  | [] => [r]
  | x :: xs => if x.timestamp < r.timestamp then r :: x :: xs else x :: insertTs r xs

/-- Stable sort by timestamp descending: the model of
`ORDER BY timestamp DESC` over rows in storage order. -/
def sortTsDesc (l : List Row) : List Row :=
  l.foldl (fun acc r => insertTs r acc) []

/-- `DatabaseManager.get_recent_logs`: WHERE (optional AND-combined
truthiness-guarded filters), ORDER BY timestamp DESC, LIMIT `limit`. -/
def get_recent_logs (st : DBState) (limit : Nat := 100)
    (session_id agent_name : Option String := none) : List Row :=
  (sortTsDesc (st.rows.filter (rowMatches session_id agent_name))).take limit

/-! ## Endpoint candidate resolution (`config.py` and `DatabaseManager.connect`) -/

/-- The environment-derived configuration read by `config.py` and re-read by
`DatabaseManager.connect`.  String-typed variables that `os.getenv` may leave
unset are `Option String` (`None`) or carry their documented defaults;
`cloudsql_connection_name` is a plain string whose Python truthiness is
emptiness (its default in the source is a non-empty connection name). -/
structure EnvConfig where
  cloudsql_connection_name : String
  cloud_run_mode : Bool
  use_private_ip : Bool
  cloudsql_private_ip : Option String
  db_user : String
  db_password : String
  db_host : String
  db_port : String
  db_name : String
deriving DecidableEq, Repr

/-- Python truthiness of an `Optional[str]`: `None` and `""` are falsy. -/
def strTruthy : Option String → Bool
  | none => false
  | some s => !s.isEmpty

/-- The f-string `postgresql://{user}:{password}@{host}:{port}/{name}`. -/
def mkUrl (user password host port name : String) : String :=
  "postgresql://" ++ user ++ ":" ++ password ++ "@" ++ host ++ ":" ++ port ++ "/" ++ name

/-- `get_database_url` (config.py lines 48-74): proxy loopback when a
connection name is set, else private IP when Cloud Run mode, the private-IP
flag and a private IP value all hold, else the public host. -/
def get_database_url (c : EnvConfig) : String :=
  if !c.cloudsql_connection_name.isEmpty then
    mkUrl c.db_user c.db_password "127.0.0.1" "5432" c.db_name
  else if c.cloud_run_mode && c.use_private_ip && strTruthy c.cloudsql_private_ip then
    mkUrl c.db_user c.db_password (c.cloudsql_private_ip.getD "") c.db_port c.db_name
  else
    mkUrl c.db_user c.db_password c.db_host c.db_port c.db_name

/-- The ordered candidate list built by `DatabaseManager.connect`
(db_operations.py lines 39-57): the configured URL first, then the private
IP when `USE_PRIVATE_IP` is true and a private IP value is truthy, then the
public host as the final fallback. -/
def urls_to_try (c : EnvConfig) : List String :=
  [get_database_url c]
    ++ (if c.use_private_ip && strTruthy c.cloudsql_private_ip then
          [mkUrl c.db_user c.db_password (c.cloudsql_private_ip.getD "") c.db_port c.db_name]
        else [])
    ++ [mkUrl c.db_user c.db_password c.db_host c.db_port c.db_name]

/-- An established connection pool (opaque: the claims only need its
identity and existence). -/
structure Pool where
  url : String
deriving DecidableEq, Repr

/-- `DatabaseManager`'s own state: `self.pool`, initially `None`. -/
structure DatabaseManager where
  pool : Option Pool
deriving DecidableEq, Repr

/-- The loop body of `DatabaseManager.connect` (lines 59-90): try each URL
in order with the environment-supplied `attempt` (liveness probe followed by
pool creation; any exception counts as failure for that candidate), return
on the first success, remember only the most recent error, and re-raise
`last_error` after exhausting the list.  The result pairs the manager state
with the raised error, `none` meaning a normal return. -/
def connectLoop (m : DatabaseManager) (attempt : String → Except String Pool) :
    List String → Option String → DatabaseManager × Option String
  | [], lastError => (m, some (lastError.getD "NoneType"))
  | url :: rest, _lastError =>
    match attempt url with
    | Except.ok p => ({ pool := some p }, none)
    | Except.error e => connectLoop m attempt rest (some e)

/-- `DatabaseManager.connect`: build the candidate list and run the loop
with no error recorded yet.  (`urls_to_try` is never empty, so the
`lastError.getD` default in `connectLoop` is dead code, mirroring the fact
that `raise last_error` can never see `None` in the source.) -/
def DatabaseManager.connect (m : DatabaseManager) (c : EnvConfig)
    (attempt : String → Except String Pool) : DatabaseManager × Option String :=
  connectLoop m attempt (urls_to_try c) none

/-! ## Client-side transport dispatcher (`StatusLoggerTool`, tools/__init__.py) -/

/-- Outcome of one transport path for a fixed event: the id the store
assigned, or the message of the exception the path raised. -/
inductive PathResult where
  | ok (id : Nat)
  | fail (e : String)
deriving DecidableEq, Repr

/-- One delivery attempt made by `StatusLoggerTool.run`. -/
inductive Attempt where
  | remote
  | direct
deriving DecidableEq, BEq, Repr

/-- The environment `StatusLoggerTool.run` executes in for one event: the
two configuration fields consulted by its branch, and what each transport
path would do if invoked (the event's fields themselves do not influence
the control flow). -/
structure DispatchEnv where
  use_http_server : Bool
  mcp_server_url : Option String
  http_result : PathResult
  db_result : PathResult
deriving DecidableEq, Repr

/-- The success string built by `_log_via_http` (tools/__init__.py line 126). -/
def log_via_http_msg (id : Nat) : String :=
  "Status logged successfully via HTTP with ID: " ++ toString id

/-- The success string built by `_log_via_database` (tools/__init__.py line 166). -/
def log_via_database_msg (id : Nat) : String :=
  "Status logged successfully with ID: " ++ toString id

/-- `StatusLoggerTool.run` (tools/__init__.py lines 172-195).  Returns the
attempts actually made, in order, and the outcome: the codomain is
`Except String String` because a Python coroutine may raise, but the outer
`except` clause of `run` converts every escaped exception into the normal
string `"Error logging status: ..."`, so every branch is `Except.ok`. -/
def run (env : DispatchEnv) : List Attempt × Except String String :=
  if env.use_http_server && strTruthy env.mcp_server_url then
    match env.http_result with
    | PathResult.ok i => ([Attempt.remote], Except.ok (log_via_http_msg i))
    | PathResult.fail _ =>
      match env.db_result with
      | PathResult.ok i => ([Attempt.remote, Attempt.direct], Except.ok (log_via_database_msg i))
      | PathResult.fail e =>
          ([Attempt.remote, Attempt.direct], Except.ok ("Error logging status: " ++ e))
  else
    match env.db_result with
    | PathResult.ok i => ([Attempt.direct], Except.ok (log_via_database_msg i))
    | PathResult.fail e => ([Attempt.direct], Except.ok ("Error logging status: " ++ e))

/-! ## Service façade (`http_server.py`, `server.py`) -/

/-- `MCP_SERVER_VERSION` from config.py. -/
def MCP_SERVER_VERSION : String := "1.0.0"

/-- The body of `HealthResponse` (http_server.py lines 82-85). -/
structure HealthResponse where
  status : String
  version : String
  database_connected : Bool
deriving DecidableEq, Repr

/-- `health_check` (http_server.py lines 140-161).  Input: the state of
`db_manager.pool` — `none` when no pool exists, otherwise the outcome of
the `SELECT 1` probe on an acquired connection.  The inner `except` turns a
failed probe into `db_connected = False`; no path raises, so every branch
of the `Except`-valued model is `Except.ok`. -/
def health_check (pool : Option (Except String Unit)) : Except String HealthResponse :=
  let db_connected :=
    match pool with
    | none => false
    | some (Except.ok _) => true
    | some (Except.error _) => false
  Except.ok { status := "healthy", version := MCP_SERVER_VERSION, database_connected := db_connected }

/-- The body of `QueryLogsResponse` (http_server.py lines 77-80). -/
structure QueryLogsResponse where
  success : Bool
  logs : List Row
  count : Nat
deriving DecidableEq, Repr

/-- The limit value the HTTP `query_logs` endpoint passes to
`get_recent_logs` (http_server.py lines 194-207): the raw query parameter,
defaulting to 100 when absent, with no bound applied (the `ge=1, le=1000`
constraints declared on the unused `QueryLogsRequest` model never run). -/
def http_query_limit_used (limit : Option Int) : Int :=
  limit.getD 100

/-- The limit value the stdio `call_tool` handler passes to
`get_recent_logs` for `query_agent_logs` (server.py line 165:
`arguments.get("limit", 100)`), again with no bound applied. -/
def stdio_query_limit_used (args_limit : Option Int) : Int :=
  args_limit.getD 100

/-- Clamping into [1, 1000], as the specification describes it. -/
def clampLimit (l : Int) : Int :=
  min (max l 1) 1000

/-- The HTTP `query_logs` endpoint (http_server.py lines 194-220): delegate
to `get_recent_logs` with the unmodified limit and wrap the rows.  A
negative limit makes the underlying store raise (PostgreSQL rejects a
negative LIMIT), which the handler converts to an HTTP 500 error. -/
def query_logs (st : DBState) (limit : Option Int)
    (session_id agent_name : Option String) : Except String QueryLogsResponse :=
  let l := http_query_limit_used limit
  if l < 0 then
    Except.error "Failed to query logs: LIMIT must not be negative"
  else
    let logs := get_recent_logs st l.toNat session_id agent_name
    Except.ok { success := true, logs := logs, count := logs.length }

/-- The `query_agent_logs` branch of the stdio `call_tool` handler
(server.py lines 163-181): delegate to `get_recent_logs` with the
unmodified limit.  As above, a negative limit surfaces as an error result. -/
def query_agent_logs (st : DBState) (args_limit : Option Int)
    (session_id agent_name : Option String) : Except String (List Row) :=
  let l := stdio_query_limit_used args_limit
  if l < 0 then
    Except.error "Error: LIMIT must not be negative"
  else
    Except.ok (get_recent_logs st l.toNat session_id agent_name)

/-! ## Helper lemmas about the query's ordering model -/

/-- The ordering the query's `ORDER BY timestamp DESC` guarantees between a
row and any row after it. -/
def tsDesc (a b : Row) : Prop := b.timestamp ≤ a.timestamp

/-- The ordering the specification asks for: timestamp descending with an
id-descending tiebreak for equal timestamps. -/
def tsDescIdDesc (a b : Row) : Prop :=
  b.timestamp < a.timestamp ∨ (b.timestamp = a.timestamp ∧ b.id < a.id)

theorem mem_insertTs (a r : Row) (l : List Row) :
    a ∈ insertTs r l ↔ a = r ∨ a ∈ l := by
  induction l with
  | nil => simp [insertTs]
  | cons x xs ih =>
    unfold insertTs
    split
    · simp [List.mem_cons]
    · simp [List.mem_cons, ih]
      tauto

theorem pairwise_insertTs (r : Row) (l : List Row) (h : List.Pairwise tsDesc l) :
    List.Pairwise tsDesc (insertTs r l) := by
  induction l with
  | nil => simp [insertTs]
  | cons x xs ih =>
    rcases List.pairwise_cons.mp h with ⟨hx, hxs⟩
    unfold insertTs
    split
    · rename_i hlt
      refine List.pairwise_cons.mpr ⟨?_, h⟩
      intro b hb
      rcases List.mem_cons.mp hb with rfl | hb2
      · exact Nat.le_of_lt hlt
      · exact Nat.le_trans (hx b hb2) (Nat.le_of_lt hlt)
    · rename_i hge
      refine List.pairwise_cons.mpr ⟨?_, ih hxs⟩
      intro b hb
      rcases (mem_insertTs b r xs).mp hb with rfl | hb2
      · exact Nat.le_of_not_lt hge
      · exact hx b hb2

theorem pairwise_foldl_insertTs (l : List Row) (acc : List Row)
    (hacc : List.Pairwise tsDesc acc) :
    List.Pairwise tsDesc (l.foldl (fun acc r => insertTs r acc) acc) := by
  induction l generalizing acc with
  | nil => exact hacc
  | cons x xs ih => exact ih (insertTs x acc) (pairwise_insertTs x acc hacc)

theorem pairwise_sortTsDesc (l : List Row) : List.Pairwise tsDesc (sortTsDesc l) :=
  pairwise_foldl_insertTs l [] List.Pairwise.nil

theorem mem_foldl_insertTs (a : Row) (l acc : List Row) :
    a ∈ l.foldl (fun acc r => insertTs r acc) acc ↔ a ∈ acc ∨ a ∈ l := by
  induction l generalizing acc with
  | nil => simp
  | cons x xs ih =>
    rw [List.foldl_cons, ih, mem_insertTs]
    simp [List.mem_cons]
    tauto

theorem mem_sortTsDesc (a : Row) (l : List Row) : a ∈ sortTsDesc l ↔ a ∈ l := by
  unfold sortTsDesc
  rw [mem_foldl_insertTs]
  simp

theorem insertTs_front (r : Row) (l : List Row)
    (h : ∀ x ∈ l, x.timestamp < r.timestamp) : insertTs r l = r :: l := by
  cases l with
  | nil => rfl
  | cons x xs =>
    unfold insertTs
    rw [if_pos (h x (by simp))]

theorem sortTsDesc_concat (l : List Row) (r : Row) :
    sortTsDesc (l ++ [r]) = insertTs r (sortTsDesc l) := by
  unfold sortTsDesc
  rw [List.foldl_append]
  rfl

theorem passesFilter_self (s : String) : passesFilter (some s) s = true := by
  unfold passesFilter
  by_cases h : s.isEmpty <;> simp [h]

/-! ## Concrete states used by counterexamples -/

/-- A stored row with timestamp 5 and id 1. -/
def tieRow1 : Row :=
  { id := 1, timestamp := 5, session_id := "s", user_id := "u", agent_name := "a",
    status_type := "info", message := "first", metadata := none }

/-- A stored row with the same timestamp 5 but the larger id 2 (two inserts
within one clock tick). -/
def tieRow2 : Row :=
  { id := 2, timestamp := 5, session_id := "s", user_id := "u", agent_name := "a",
    status_type := "info", message := "second", metadata := none }

/-- A table holding two equal-timestamp rows in storage order. -/
def tieState : DBState := { rows := [tieRow1, tieRow2], nextId := 3 }

/-- A table holding one row, used by the round-trip and limit
counterexamples. -/
def oneRowState : DBState := { rows := [tieRow1], nextId := 2 }

/-! ## C1 — query ordering -/

/-- C1 counterexample: the claim asserts that every query result is ordered
by timestamp descending with an id-descending tiebreak.  On a table holding
two rows with equal timestamps (ids 1 then 2 in storage order), the query —
whose SQL is `ORDER BY timestamp DESC` with no tiebreak column — returns
them in storage order, id ascending, so the pair with equal timestamps does
NOT have the larger id first. -/
theorem get_recent_logs_no_id_tiebreak_cex :
    get_recent_logs tieState 10 none none = [tieRow1, tieRow2] ∧
    tieRow1.timestamp = tieRow2.timestamp ∧ tieRow1.id < tieRow2.id ∧
    ¬ List.Pairwise tsDescIdDesc (get_recent_logs tieState 10 none none) := by
  refine ⟨by decide, by decide, by decide, ?_⟩
  intro h
  rw [show get_recent_logs tieState 10 none none = [tieRow1, tieRow2] from by decide] at h
  rcases List.pairwise_cons.mp h with ⟨hrel, -⟩
  rcases hrel tieRow2 (by simp) with h1 | ⟨-, h3⟩
  · exact absurd h1 (by decide)
  · exact absurd h3 (by decide)

/-- C1 (amended): for every query call of the Log Store, with or without
filters, the returned sequence is ordered by timestamp descending; no
id-based tiebreak is applied for equal timestamps (the SQL orders by
`timestamp DESC` only, so equal-timestamp rows come back in the underlying
storage order). -/
theorem get_recent_logs_sorted_ts_desc (st : DBState) (limit : Nat)
    (session_id agent_name : Option String) :
    List.Pairwise tsDesc (get_recent_logs st limit session_id agent_name) :=
  List.Pairwise.sublist (List.take_sublist _ _) (pairwise_sortTsDesc _)

/-! ## C8 — insert-then-query round trip -/

/-- C8 counterexample: the claim asserts the round trip works for *every*
working store.  On a store already holding a matching row with the same
timestamp the insert will receive (two inserts within one clock tick), the
tiebreak-free ordering returns the OLD row first: its message is "first",
not the just-inserted "new", and its id 1 is not the id 2 the insert
returned. -/
theorem insert_then_query_tie_cex :
    ((get_recent_logs (log_status oneRowState 5 "s" "u" "a" "info" "new" none).2
        10 (some "s") (some "a")).head?.map Row.message) = some "first" ∧
    some "first" ≠ some "new" ∧
    ((get_recent_logs (log_status oneRowState 5 "s" "u" "a" "info" "new" none).2
        10 (some "s") (some "a")).head?.map Row.id) = some 1 ∧
    (log_status oneRowState 5 "s" "u" "a" "info" "new" none).1 = 2 := by
  refine ⟨by decide, by decide, by decide, by decide⟩

/-- C8 (amended): inserting event E and querying with limit ≥ 1 and filters
matching E returns a sequence whose first element is E's stored row — all
input fields equal, the store-assigned id equal to the id the insert
returned, and the store-assigned timestamp — PROVIDED the timestamp the
store assigns to E is strictly later than that of every already-stored row
matching the filters (without strictness, an equal-timestamp older row can
come first, as the counterexample shows). -/
theorem insert_then_query_first (st : DBState) (now : Nat)
    (sid uid an ty msg : String) (md : Option Metadata) (limit : Nat)
    (hl : 1 ≤ limit)
    (hfresh : ∀ r ∈ st.rows, rowMatches (some sid) (some an) r = true → r.timestamp < now) :
    (get_recent_logs (log_status st now sid uid an ty msg md).2 limit
        (some sid) (some an)).head? =
      some { id := (log_status st now sid uid an ty msg md).1, timestamp := now,
             session_id := sid, user_id := uid, agent_name := an,
             status_type := ty, message := msg, metadata := serializeMetadata md } := by
  have hfr : ∀ x ∈ sortTsDesc (st.rows.filter (rowMatches (some sid) (some an))),
      x.timestamp < now := by
    intro x hx
    have hx2 := (mem_sortTsDesc x _).mp hx
    have hx3 := List.mem_filter.mp hx2
    exact hfresh x hx3.1 hx3.2
  have hmatch : rowMatches (some sid) (some an)
      ({ id := st.nextId, timestamp := now, session_id := sid, user_id := uid,
         agent_name := an, status_type := ty, message := msg,
         metadata := serializeMetadata md } : Row) = true := by
    simp [rowMatches, passesFilter_self]
  have hstep : (log_status st now sid uid an ty msg md).2.rows =
      st.rows ++ [{ id := st.nextId, timestamp := now, session_id := sid, user_id := uid,
                    agent_name := an, status_type := ty, message := msg,
                    metadata := serializeMetadata md }] := rfl
  have hid : (log_status st now sid uid an ty msg md).1 = st.nextId := rfl
  have hsing : List.filter (rowMatches (some sid) (some an))
      [({ id := st.nextId, timestamp := now, session_id := sid, user_id := uid,
          agent_name := an, status_type := ty, message := msg,
          metadata := serializeMetadata md } : Row)] =
      [{ id := st.nextId, timestamp := now, session_id := sid, user_id := uid,
         agent_name := an, status_type := ty, message := msg,
         metadata := serializeMetadata md }] := by
    simp [hmatch]
  unfold get_recent_logs
  rw [hstep, hid, List.filter_append, hsing, sortTsDesc_concat, insertTs_front _ _ hfr]
  cases limit with
  | zero => omega
  | succ n => simp

/-- C8 witness: the amended round trip at a concrete input — empty store,
insert at clock 7, query with limit 1 and matching filters. -/
theorem insert_then_query_first_witness :
    (get_recent_logs (log_status ⟨[], 1⟩ 7 "s" "u" "a" "info" "hello" none).2 1
        (some "s") (some "a")).head? =
      some { id := (log_status ⟨[], 1⟩ 7 "s" "u" "a" "info" "hello" none).1, timestamp := 7,
             session_id := "s", user_id := "u", agent_name := "a",
             status_type := "info", message := "hello", metadata := serializeMetadata none } :=
  insert_then_query_first ⟨[], 1⟩ 7 "s" "u" "a" "info" "hello" none 1 (by decide)
    (by intro r hr; cases hr)

/-! ## C9 — empty metadata dictionary stored as NULL -/

/-- C9: both the server-side insert (`log_status`) and the client's direct
path serialize metadata with `json.dumps(metadata) if metadata else None`,
and the empty dict is falsy in Python, so inserting `{}` stores SQL NULL —
the resulting table state is identical to inserting with metadata omitted,
and the stored (hence queried) metadata of that event is NULL. -/
theorem empty_metadata_stored_null :
    serializeMetadata (some []) = none ∧
    serializeMetadata none = none ∧
    clientSerializeMetadata (some []) = none ∧
    clientSerializeMetadata none = none ∧
    (∀ st now sid uid an ty msg,
      log_status st now sid uid an ty msg (some []) =
        log_status st now sid uid an ty msg none) ∧
    (∀ st now sid uid an ty msg,
      ((log_status st now sid uid an ty msg (some [])).2.rows.getLast?.map Row.metadata) =
        some none) := by
  refine ⟨rfl, rfl, rfl, rfl, fun st now sid uid an ty msg => rfl, ?_⟩
  intro st now sid uid an ty msg
  simp [log_status, List.getLast?_concat, serializeMetadata]

/-! ## C10 — empty-string filters are ignored -/

/-- C10: filter-clause inclusion in `get_recent_logs` is decided by Python
string truthiness (`if session_id:` / `if agent_name:`), so a query whose
session_id or agent_name filter is the empty string behaves exactly like
the same query with that filter absent; consequently no query can restrict
results to rows whose session_id or agent_name is `""`. -/
theorem empty_string_filter_ignored (st : DBState) (limit : Nat) (fl : Option String) :
    get_recent_logs st limit (some "") fl = get_recent_logs st limit none fl ∧
    get_recent_logs st limit fl (some "") = get_recent_logs st limit fl none :=
  ⟨rfl, rfl⟩

/-! ## C2 — remote failure falls back to exactly one direct insert -/

/-- C2: whenever remote-transport mode is on, a remote URL is configured
and the remote attempt fails, `run` makes exactly the attempt sequence
[remote, direct] — one direct insert, no remote retry — and the outcome is
exactly the direct path's: on direct success, `run` succeeds reporting the
id the direct path assigned. -/
theorem run_remote_failure_single_direct_fallback (env : DispatchEnv) (e : String)
    (h1 : env.use_http_server = true)
    (h2 : strTruthy env.mcp_server_url = true)
    (h3 : env.http_result = PathResult.fail e) :
    (run env).1 = [Attempt.remote, Attempt.direct] ∧
    (run env).2 = (match env.db_result with
                   | PathResult.ok i => Except.ok (log_via_database_msg i)
                   | PathResult.fail e2 => Except.ok ("Error logging status: " ++ e2)) := by
  cases hdb : env.db_result <;> simp [run, h1, h2, h3, hdb]

/-- C2 witness: concrete environment — remote configured and failing,
direct path assigning id 456. -/
theorem run_remote_failure_single_direct_fallback_witness :
    (run ⟨true, some "https://mcp.example", PathResult.fail "http boom", PathResult.ok 456⟩).1 =
      [Attempt.remote, Attempt.direct] ∧
    (run ⟨true, some "https://mcp.example", PathResult.fail "http boom", PathResult.ok 456⟩).2 =
      (match (⟨true, some "https://mcp.example", PathResult.fail "http boom",
               PathResult.ok 456⟩ : DispatchEnv).db_result with
       | PathResult.ok i => Except.ok (log_via_database_msg i)
       | PathResult.fail e2 => Except.ok ("Error logging status: " ++ e2)) :=
  run_remote_failure_single_direct_fallback
    ⟨true, some "https://mcp.example", PathResult.fail "http boom", PathResult.ok 456⟩
    "http boom" rfl rfl rfl

/-! ## C3 — both paths failing is returned as a normal string, not an error -/

/-- C3 counterexample: the claim asserts that when the remote attempt and
the direct insert both fail, `run` fails with an error wrapping the direct
error.  In the source, `run`'s outer `except` clause catches the direct
path's exception and RETURNS the normal string
`"Error logging status: ..."`; at a concrete environment where both paths
fail the outcome is success-shaped (`Except.ok`), not an error. -/
theorem run_both_fail_returns_ok_cex :
    (run ⟨true, some "https://mcp.example", PathResult.fail "http boom",
          PathResult.fail "db down"⟩).2 = Except.ok "Error logging status: db down" ∧
    ((run ⟨true, some "https://mcp.example", PathResult.fail "http boom",
          PathResult.fail "db down"⟩).2).isOk = true :=
  ⟨rfl, rfl⟩

/-- C3 (amended): when the direct insert fails (and the remote attempt, if
its branch was taken at all, failed too), `run` does not propagate any
error: it returns normally with the success-shaped string
`"Error logging status: "` followed by the direct-path error message — the
direct error is embedded in the return value, and the remote-path error is
dropped. -/
theorem run_both_fail_returns_error_string (env : DispatchEnv) (e2 : String)
    (hdb : env.db_result = PathResult.fail e2)
    (hremote : (env.use_http_server && strTruthy env.mcp_server_url) = false ∨
               ∃ e1, env.http_result = PathResult.fail e1) :
    (run env).2 = Except.ok ("Error logging status: " ++ e2) := by
  by_cases hc : (env.use_http_server && strTruthy env.mcp_server_url) = true
  · rcases hremote with hfalse | ⟨e1, he1⟩
    · rw [hc] at hfalse; cases hfalse
    · simp [run, hc, he1, hdb]
  · have hc' : (env.use_http_server && strTruthy env.mcp_server_url) = false :=
      Bool.eq_false_iff.mpr hc
    simp [run, hc', hdb]

/-- C3 witness: the amended behavior at a concrete environment where both
paths fail. -/
theorem run_both_fail_returns_error_string_witness :
    (run ⟨true, some "https://mcp.example", PathResult.fail "http boom",
          PathResult.fail "db down"⟩).2 =
      Except.ok ("Error logging status: " ++ "db down") :=
  run_both_fail_returns_error_string
    ⟨true, some "https://mcp.example", PathResult.fail "http boom", PathResult.fail "db down"⟩
    "db down" rfl (Or.inr ⟨"http boom", rfl⟩)

/-! ## C4 — candidate sequence in the public-IP-only configuration -/

/-- The public/direct URL built from the configuration's public host. -/
def publicUrl (c : EnvConfig) : String :=
  mkUrl c.db_user c.db_password c.db_host c.db_port c.db_name

/-- The public-IP-only configuration used by the C4 counterexample: no
connection name, Cloud Run mode off, private IP disabled and absent. -/
def publicOnlyConfig : EnvConfig :=
  { cloudsql_connection_name := "", cloud_run_mode := false, use_private_ip := false,
    cloudsql_private_ip := none, db_user := "finadvisor_user", db_password := "pw",
    db_host := "34.29.136.71", db_port := "5432", db_name := "FinAdvisor" }

/-- C4 counterexample: the claim asserts the candidate sequence has length
exactly 1 in a public-IP-only configuration.  `connect` always appends the
public host as a final fallback after the configured URL — which in this
configuration already IS the public URL — so the sequence has length 2
(a harmless duplicate), not 1. -/
theorem urls_to_try_public_only_cex :
    (urls_to_try publicOnlyConfig).length = 2 ∧
    ¬ ((urls_to_try publicOnlyConfig).length = 1) := by
  refine ⟨by decide, by decide⟩

/-- C4 (amended): for every configuration in which only the public-IP value
is set (no connection name, and private-IP usage disabled or no truthy
private-IP value), the resolver's candidate sequence has length exactly 2,
and both candidates equal the public-IP URL. -/
theorem urls_to_try_public_only_pair (c : EnvConfig)
    (hname : c.cloudsql_connection_name = "")
    (hpriv : c.use_private_ip = false ∨ strTruthy c.cloudsql_private_ip = false) :
    urls_to_try c = [publicUrl c, publicUrl c] := by
  have hp : (c.use_private_ip && strTruthy c.cloudsql_private_ip) = false := by
    rcases hpriv with h | h <;> simp [h]
  have hcf : (c.cloud_run_mode && c.use_private_ip && strTruthy c.cloudsql_private_ip) = false := by
    rcases hpriv with h | h <;> simp [h]
  have hdb : get_database_url c = publicUrl c := by
    unfold get_database_url publicUrl
    rw [hname, hcf]
    rfl
  unfold urls_to_try
  rw [hp, hdb]
  simp [publicUrl]

/-- C4 witness: the amended statement at the concrete public-IP-only
configuration. -/
theorem urls_to_try_public_only_pair_witness :
    urls_to_try publicOnlyConfig = [publicUrl publicOnlyConfig, publicUrl publicOnlyConfig] :=
  urls_to_try_public_only_pair publicOnlyConfig rfl (Or.inl rfl)

/-! ## C5 — pool establishment when every candidate fails -/

theorem urls_to_try_ne_nil (c : EnvConfig) : urls_to_try c ≠ [] := by
  simp [urls_to_try]

theorem connectLoop_all_fail (m : DatabaseManager) (attempt : String → Except String Pool)
    (f : String → String) :
    ∀ (l : List String) (hne : l ≠ []) (le0 : Option String),
      (∀ u ∈ l, attempt u = Except.error (f u)) →
      connectLoop m attempt l le0 = (m, some (f (l.getLast hne))) := by
  intro l
  induction l with
  | nil => intro hne; exact absurd rfl hne
  | cons x xs ih =>
    intro hne le0 h
    have hx := h x (by simp)
    cases xs with
    | nil => simp [connectLoop, hx, List.getLast]
    | cons y rest =>
      have hloop := ih (by simp) (some (f x)) (fun u hu => h u (by simp [hu]))
      rw [List.getLast_cons (by simp)]
      have step : connectLoop m attempt (x :: y :: rest) le0 =
          connectLoop m attempt (y :: rest) (some (f x)) := by
        rw [connectLoop, hx]
      rw [step]
      exact hloop

/-- C5: when the liveness/pool attempt fails for every candidate URL,
`connect` raises exactly the last candidate's underlying error (earlier
candidates' errors are logged only, never part of the propagated value) and
leaves the manager unchanged — in particular no pool is created. -/
theorem connect_all_candidates_fail (m : DatabaseManager) (c : EnvConfig)
    (attempt : String → Except String Pool) (f : String → String)
    (h : ∀ u ∈ urls_to_try c, attempt u = Except.error (f u)) :
    DatabaseManager.connect m c attempt =
      (m, some (f ((urls_to_try c).getLast (urls_to_try_ne_nil c)))) :=
  connectLoop_all_fail m attempt f (urls_to_try c) (urls_to_try_ne_nil c) none h

/-- C5 witness: a fresh manager and the concrete public-IP-only
configuration, with every probe failing with "connection refused". -/
theorem connect_all_candidates_fail_witness :
    DatabaseManager.connect ⟨none⟩ publicOnlyConfig (fun _ => Except.error "connection refused") =
      (⟨none⟩, some ((fun _ => "connection refused")
        ((urls_to_try publicOnlyConfig).getLast (urls_to_try_ne_nil publicOnlyConfig)))) :=
  connect_all_candidates_fail ⟨none⟩ publicOnlyConfig
    (fun _ => Except.error "connection refused") (fun _ => "connection refused")
    (fun _ _ => rfl)

/-! ## C6 — query limit is not clamped -/

/-- C6 counterexample: the claim asserts the limit actually used is the
requested limit clamped into [1, 1000].  Neither façade applies any bound
(the `ge=1, le=1000` constraints declared on the unused `QueryLogsRequest`
model never run): a requested limit of 2000 reaches the store as 2000, and
a requested limit of 0 reaches the store as 0 — the one-row table yields
zero rows where a clamped limit of 1 would yield one. -/
theorem query_limit_not_clamped_cex :
    http_query_limit_used (some 2000) = 2000 ∧
    clampLimit 2000 = 1000 ∧
    ¬ (http_query_limit_used (some 2000) = clampLimit 2000) ∧
    stdio_query_limit_used (some 0) = 0 ∧
    ¬ (1 ≤ stdio_query_limit_used (some 0)) ∧
    query_agent_logs oneRowState (some 0) none none = Except.ok [] ∧
    query_agent_logs oneRowState (some 1) none none = Except.ok [tieRow1] := by
  refine ⟨by decide, by decide, by decide, by decide, by decide, rfl, rfl⟩

/-- C6 (amended): both façades pass the request's limit to the store
unchanged — defaulting to 100 when absent, with no lower or upper bound
applied — so out-of-range limits (0, or values above 1000) are executed
as given. -/
theorem query_limit_passthrough (st : DBState) (session_id agent_name : Option String)
    (l : Int) (h : 0 ≤ l) :
    http_query_limit_used (some l) = l ∧
    stdio_query_limit_used (some l) = l ∧
    http_query_limit_used none = 100 ∧
    stdio_query_limit_used none = 100 ∧
    query_logs st (some l) session_id agent_name =
      Except.ok { success := true, logs := get_recent_logs st l.toNat session_id agent_name,
                  count := (get_recent_logs st l.toNat session_id agent_name).length } ∧
    query_agent_logs st (some l) session_id agent_name =
      Except.ok (get_recent_logs st l.toNat session_id agent_name) := by
  have hnl : ¬ (l < 0) := not_lt.mpr h
  refine ⟨rfl, rfl, rfl, rfl, ?_, ?_⟩
  · simp [query_logs, http_query_limit_used, hnl]
  · simp [query_agent_logs, stdio_query_limit_used, hnl]

/-- C6 witness: the amended pass-through at the one-row table with the
out-of-range limit 2000. -/
theorem query_limit_passthrough_witness :
    http_query_limit_used (some 2000) = 2000 ∧
    stdio_query_limit_used (some 2000) = 2000 ∧
    http_query_limit_used none = 100 ∧
    stdio_query_limit_used none = 100 ∧
    query_logs oneRowState (some 2000) none none =
      Except.ok { success := true, logs := get_recent_logs oneRowState (2000 : Int).toNat none none,
                  count := (get_recent_logs oneRowState (2000 : Int).toNat none none).length } ∧
    query_agent_logs oneRowState (some 2000) none none =
      Except.ok (get_recent_logs oneRowState (2000 : Int).toNat none none) :=
  query_limit_passthrough oneRowState none none 2000 (by decide)

/-! ## C7 — health never fails on storage unavailability -/

/-- C7: for every storage state — no pool at all, a pool whose probe
succeeds, or a pool whose probe fails — the health operation returns a
success response with status "healthy" and a boolean `database_connected`
field, never an error; in particular, before any storage operation has
been attempted (`pool = none`) it returns `database_connected = false`
without error. -/
theorem health_check_never_errors :
    (∀ p, ∃ b, health_check p =
      Except.ok { status := "healthy", version := MCP_SERVER_VERSION, database_connected := b }) ∧
    health_check none =
      Except.ok { status := "healthy", version := MCP_SERVER_VERSION, database_connected := false } :=
  ⟨fun _p => ⟨_, rfl⟩, rfl⟩

end FinAdvisor
